import Mathlib

/-!
Verification development for the PI Lead Monitor dashboard.

The repository's logic is a two-tier paged query fetcher
(`fetchPagedFromViewOrArticles`: try the `v_triage_live` view, fall back to the
`articles` base table), a lazily constructed remote client (`getSupabase`),
and client-side search/sort refinement of the fetched page (`searched` /
`filtered` in the page components).  The definitions below are a shallow
embedding of that code:

* JavaScript strings are Lean `String`s; the built-ins `trim`, `toLowerCase`
  and `includes` are rendered as explicit, structurally recursive functions
  over the character list (`jsTrim`, `lowerStr`, `strIncludes`) so that every
  definition evaluates inside the kernel.
* ISO timestamp strings are represented by their parsed epoch value
  (`new Date(s).getTime()`), so `triaged_at` is an `Option Int`; numbers are
  `Int`.
* The remote service is an oracle `Service : Query → RemoteResp`; the query
  builder chain (`from/select/order/range/gte/eq/not`) is reified as the
  record `Query` that the fetcher sends to the oracle.
* Fallible code returns `Except String _`; a thrown `Error` is `Except.error`
  with the error's message.
-/

/-- One lead record, mirroring the `Row` type of the page components.
`triaged_at` and `ingested_at` hold the parsed epoch value of the ISO
timestamp string; `lead_score` is the numeric score. -/
structure Row where
  id : String
  url : Option String
  title : Option String
  publisher_domain : Option String
  people : Option (List String)
  severity : Option String
  case_type : Option String
  lead_score : Option Int
  triage_reasons : Option (List String)
  triaged_at : Option Int
  ingested_at : Option Int
  status : Option String
deriving DecidableEq, Repr

/-- The `PAGE_SIZE` constant of the page components. -/
def PAGE_SIZE : Int := 50

/-- The column list passed to `select` by the fetcher. -/
def selectCols : String :=
  "id,url,title,publisher_domain,people,severity,case_type,lead_score,triage_reasons,triaged_at,ingested_at,status"

/-- The filter-and-page parameters of `fetchPagedFromViewOrArticles`.  The
variant without a status selector corresponds to `status = "all"`. -/
structure Params where
  minScore : Int
  severity : String
  caseType : String
  status : String
  page : Int
deriving DecidableEq, Repr

/-- A reified remote query: the result of the PostgREST builder chain
`from(table).select(sel, count exact).not(...).order(...).range(...)` with the
conditionally applied `gte`/`eq` filters. -/
structure Query where
  table : String
  sel : String
  countExact : Bool
  /-- `gte("lead_score", m)` filter, `none` when not applied. -/
  minScoreGte : Option Int
  /-- `eq("severity", v)` filter, `none` when not applied. -/
  severityEq : Option String
  /-- `eq("case_type", v)` filter, `none` when not applied. -/
  caseTypeEq : Option String
  /-- `eq("status", v)` filter, `none` when not applied. -/
  statusEq : Option String
  /-- `not("triaged_at", "is", null)` constraint. -/
  notNullTriagedAt : Bool
  /-- `order("triaged_at", { ascending: false })`. -/
  descTriagedAt : Bool
  rangeFrom : Int
  rangeTo : Int
deriving DecidableEq, Repr

/-- A response of the remote service: `data`, `count` and `error` are each
nullable, exactly as the awaited builder result is used by the fetcher. -/
structure RemoteResp where
  data : Option (List Row)
  count : Option Nat
  error : Option String
deriving DecidableEq, Repr

/-- The remote service (Supabase client) as an oracle from queries to
responses. -/
abbrev Service := Query → RemoteResp

/-- A successful fetch result: rows, total count and the source tag
(`"v_triage_live"` for the primary view, `"articles"` for the fallback
table). -/
structure FetchOk where
  data : List Row
  count : Nat
  source : String
deriving DecidableEq, Repr

/-- The primary query issued against the `v_triage_live` view:
`select(selectCols, count exact).order(triaged_at desc).range(fromIdx, toIdx)`
plus `gte` on `lead_score` when `minScore > 0` and `eq` filters for each
selector that is not `"all"`. -/
def viewQuery (p : Params) : Query :=
  ⟨"v_triage_live", selectCols, true,
    if p.minScore > 0 then some p.minScore else none,
    if p.severity ≠ "all" then some p.severity else none,
    if p.caseType ≠ "all" then some p.caseType else none,
    if p.status ≠ "all" then some p.status else none,
    false, true,
    (p.page - 1) * PAGE_SIZE,
    (p.page - 1) * PAGE_SIZE + PAGE_SIZE - 1⟩

/-- The fallback query issued against the `articles` base table: the same
select/order/range and conditional filters as `viewQuery`, plus
`not("triaged_at", "is", null)`. -/
def articlesQuery (p : Params) : Query :=
  ⟨"articles", selectCols, true,
    if p.minScore > 0 then some p.minScore else none,
    if p.severity ≠ "all" then some p.severity else none,
    if p.caseType ≠ "all" then some p.caseType else none,
    if p.status ≠ "all" then some p.status else none,
    true, true,
    (p.page - 1) * PAGE_SIZE,
    (p.page - 1) * PAGE_SIZE + PAGE_SIZE - 1⟩

/-- The error message thrown when both queries fail. -/
def combinedErrorMsg (e1 e2 : String) : String :=
  "View error: " ++ e1 ++ " | Articles error: " ++ e2

/-- The branch logic of the fetcher on the two awaited responses: if the
primary response has no error, return its data/count with source
`"v_triage_live"` (`?? []` / `?? 0` for null data/count); otherwise, if the
fallback response has an error, throw the combined message; otherwise return
the fallback's data/count with source `"articles"`. -/
def fetchCore (r1 r2 : RemoteResp) : Except String FetchOk :=
  match r1.error with
  | none => Except.ok ⟨r1.data.getD [], r1.count.getD 0, "v_triage_live"⟩
  | some e1 =>
    match r2.error with
    | some e2 => Except.error (combinedErrorMsg e1 e2)
    | none => Except.ok ⟨r2.data.getD [], r2.count.getD 0, "articles"⟩

/-- `fetchPagedFromViewOrArticles`: with no client (build/SSR), return the
empty result tagged `"v_triage_live"`; otherwise run the primary view query
and fall back to the articles query via `fetchCore`. -/
def fetchPagedFromViewOrArticles (client : Option Service) (p : Params) :
    Except String FetchOk :=
  match client with
  | none => Except.ok ⟨[], 0, "v_triage_live"⟩
  | some svc => fetchCore (svc (viewQuery p)) (svc (articlesQuery p))

/-- `getSupabase`: returns no client outside a browser; returns the memoized
client when one exists; returns no client when the configured URL or anon key
is absent or empty (falsy); otherwise constructs a client from them.
`url`/`anon` model `process.env.NEXT_PUBLIC_SUPABASE_URL` /
`..._ANON_KEY` (absent = `none`). -/
def getSupabase (isBrowser : Bool) (cached : Option Service)
    (url anon : Option String) (createClient : String → String → Service) :
    Option Service :=
  if !isBrowser then none
  else
    match cached with
    | some c => some c
    | none =>
      if url.getD "" = "" || anon.getD "" = "" then none
      else some (createClient (url.getD "") (anon.getD ""))

/-- JavaScript `String.prototype.toLowerCase`, rendered character-wise. -/
def lowerStr (s : String) : String :=
  ⟨s.data.map Char.toLower⟩

/-- JavaScript `String.prototype.trim`: strip whitespace from both ends. -/
def jsTrim (s : String) : String :=
  ⟨(((s.data.dropWhile Char.isWhitespace).reverse).dropWhile
      Char.isWhitespace).reverse⟩

/-- Contiguous containment of `needle` in a character list, structurally
recursive so it evaluates in the kernel. -/
def charsInclude (needle : List Char) : List Char → Bool
  | [] => needle.isEmpty
  | c :: t => needle.isPrefixOf (c :: t) || charsInclude needle t

/-- JavaScript `hay.includes(s)`: `s` occurs contiguously in `hay`. -/
def strIncludes (hay s : String) : Bool :=
  charsInclude s.data hay.data

/-- The search haystack of the first page variant: title, publisher domain,
joined triage reasons and joined people, each separated by a single space,
lowercased (`?? ""` / `?? []` for null fields). -/
def hayBase (r : Row) : String :=
  lowerStr ((r.title.getD "") ++ " " ++ (r.publisher_domain.getD "") ++ " " ++
    String.intercalate " " (r.triage_reasons.getD []) ++ " " ++
    String.intercalate " " (r.people.getD []))

/-- The search haystack of the status-aware page variant: `hayBase` fields
followed by a single space and the status (`?? ""`). -/
def hayWithStatus (r : Row) : String :=
  lowerStr ((r.title.getD "") ++ " " ++ (r.publisher_domain.getD "") ++ " " ++
    String.intercalate " " (r.triage_reasons.getD []) ++ " " ++
    String.intercalate " " (r.people.getD []) ++ " " ++ (r.status.getD ""))

/-- The `searched` step of the `filtered` memo (variant without status in the
haystack): `s = search.trim().toLowerCase()`; if `s` is empty keep all rows,
otherwise keep the rows whose haystack `includes(s)`. -/
def searched (rows : List Row) (search : String) : List Row :=
  let s := lowerStr (jsTrim search)
  if s = "" then rows
  else rows.filter (fun r => strIncludes (hayBase r) s)

/-- The `searched` step of the status-aware variant's `filtered` memo. -/
def searchedWithStatus (rows : List Row) (search : String) : List Row :=
  let s := lowerStr (jsTrim search)
  if s = "" then rows
  else rows.filter (fun r => strIncludes (hayWithStatus r) s)

/-- The claim's reading of the search filter, stated for comparison with
`searched`: an empty or whitespace-only search keeps all rows, and otherwise
a row is kept when its haystack contains the lowercased (untrimmed) search
string as a substring. -/
def searchedClaim (rows : List Row) (search : String) : List Row :=
  if jsTrim search = "" then rows
  else rows.filter (fun r => strIncludes (hayBase r) (lowerStr search))

/-- The client-side sort key (`sortKey` state). -/
inductive SortKey where
  | triaged_at
  | lead_score
deriving DecidableEq, Repr

/-- The client-side sort direction (`sortDir` state). -/
inductive SortDir where
  | asc
  | desc
deriving DecidableEq, Repr

/-- The sort key of a row: `lead_score ?? -Infinity` or the triage time
`a.triaged_at ? getTime(a.triaged_at) : -Infinity`, with `none` standing for
the `-Infinity` sentinel. -/
def keyOf (k : SortKey) (r : Row) : Option Int :=
  match k with
  | SortKey.lead_score => r.lead_score
  | SortKey.triaged_at => r.triaged_at

/-- `extLE a b` is `av - bv <= 0` under the JS comparator semantics: the
`-Infinity` sentinel (`none`) is below every value, and the `NaN` produced by
`-Infinity - -Infinity` is treated as `0` (equal) by `Array.prototype.sort`. -/
def extLE : Option Int → Option Int → Bool
  | none, _ => true
  | some _, none => false
  | some a, some b => a ≤ b

/-- The comparator of the `filtered` memo as a boolean `≤`:
`sortDir === "asc" ? av - bv : bv - av` is nonpositive. -/
def sortLE (k : SortKey) (d : SortDir) (a b : Row) : Bool :=
  match d with
  | SortDir.asc => extLE (keyOf k a) (keyOf k b)
  | SortDir.desc => extLE (keyOf k b) (keyOf k a)

/-- The client-side sort `[...searched].sort(cmp)`; `Array.prototype.sort` is
stable, modelled by a stable merge sort with the comparator's `≤`. -/
def clientSort (k : SortKey) (d : SortDir) (rows : List Row) : List Row :=
  rows.mergeSort (sortLE k d)

/-- The complete `filtered` memo of the first page variant: search, then
sort. -/
def filteredMemo (rows : List Row) (search : String) (k : SortKey)
    (d : SortDir) : List Row :=
  clientSort k d (searched rows search)

/-- The sort key of the third page variant's comparator, which uses plain
finite sentinels instead of `-Infinity`: `a.lead_score ?? -1` for the score
and `new Date(a.triaged_at ?? 0).getTime()` for the triage time (a missing
timestamp becomes epoch 0). -/
def keyOf3 (k : SortKey) (r : Row) : Int :=
  match k with
  | SortKey.lead_score => r.lead_score.getD (-1)
  | SortKey.triaged_at => r.triaged_at.getD 0

/-- The third variant's comparator as a boolean `≤`:
`sortDir === "asc" ? av - bv : bv - av` is nonpositive, with the `?? -1` /
epoch-0 sentinel keys of `keyOf3`. -/
def sortLE3 (k : SortKey) (d : SortDir) (a b : Row) : Bool :=
  match d with
  | SortDir.asc => keyOf3 k a ≤ keyOf3 k b
  | SortDir.desc => keyOf3 k b ≤ keyOf3 k a

/-- The third page variant's client-side sort `[...searched].sort(...)`,
modelled like `clientSort` by a stable merge sort with that comparator. -/
def clientSort3 (k : SortKey) (d : SortDir) (rows : List Row) : List Row :=
  rows.mergeSort (sortLE3 k d)

/-- The page component state touched by `load` (status-aware variant; the
variant without a status filter corresponds to `status = "all"`). -/
structure PageState where
  rows : List Row
  totalCount : Nat
  loading : Bool
  err : Option String
  source : Option String
  minScore : Int
  severity : String
  caseType : String
  status : String
  search : String
  page : Int
  autoRefresh : Bool
  sortKey : SortKey
  sortDir : SortDir
deriving Repr

/-- The fetch parameters a `load` call builds from the current state. -/
def paramsOf (st : PageState) : Params :=
  ⟨st.minScore, st.severity, st.caseType, st.status, st.page⟩

/-- The `load` routine as a state transition (after `finally` has cleared
`loading`): on success set rows/count/source and snap the page back to 1 when
it fell out of range; on a thrown error set rows to `[]`, count to `0`, `err`
to the message and `source` to null, leaving all other state unchanged. -/
def load (client : Option Service) (st : PageState) : PageState :=
  match fetchPagedFromViewOrArticles client (paramsOf st) with
  | Except.ok res =>
    let newTotalPages : Int := max 1 (((res.count + 49) / 50 : Nat) : Int)
    let newPage : Int := if st.page > newTotalPages then 1 else st.page
    ⟨res.data, res.count, false, none, some res.source,
      st.minScore, st.severity, st.caseType, st.status, st.search,
      newPage, st.autoRefresh, st.sortKey, st.sortDir⟩
  | Except.error e =>
    ⟨[], 0, false, some e, none,
      st.minScore, st.severity, st.caseType, st.status, st.search,
      st.page, st.autoRefresh, st.sortKey, st.sortDir⟩

theorem extLE_trans (a b c : Option Int) (hab : extLE a b = true)
    (hbc : extLE b c = true) : extLE a c = true := by
  cases a <;> cases b <;> cases c <;> simp_all [extLE] <;> omega

theorem extLE_total (a b : Option Int) : (extLE a b || extLE b a) = true := by
  cases a <;> cases b <;> simp [extLE] <;> omega

theorem sortLE_trans (k : SortKey) (d : SortDir) (a b c : Row)
    (hab : sortLE k d a b = true) (hbc : sortLE k d b c = true) :
    sortLE k d a c = true := by
  cases d
  · simp only [sortLE] at hab hbc ⊢
    exact extLE_trans _ _ _ hab hbc
  · simp only [sortLE] at hab hbc ⊢
    exact extLE_trans _ _ _ hbc hab

theorem sortLE_total (k : SortKey) (d : SortDir) (a b : Row) :
    (sortLE k d a b || sortLE k d b a) = true := by
  cases d
  · simp only [sortLE]
    exact extLE_total _ _
  · simp only [sortLE]
    exact extLE_total _ _

theorem clientSort_pairwise (k : SortKey) (d : SortDir) (rows : List Row) :
    (clientSort k d rows).Pairwise (fun a b => sortLE k d a b = true) :=
  List.sorted_mergeSort (sortLE_trans k d) (sortLE_total k d) rows

theorem clientSort_rel_of_lt (k : SortKey) (d : SortDir) (rows : List Row)
    (i j : Nat) (hi : i < (clientSort k d rows).length)
    (hj : j < (clientSort k d rows).length) (hij : i < j) :
    sortLE k d ((clientSort k d rows).get ⟨i, hi⟩)
      ((clientSort k d rows).get ⟨j, hj⟩) = true := by
  have h := List.pairwise_iff_getElem.mp (clientSort_pairwise k d rows) i j hi hj hij
  simpa using h

theorem sortLE3_trans (k : SortKey) (d : SortDir) (a b c : Row)
    (hab : sortLE3 k d a b = true) (hbc : sortLE3 k d b c = true) :
    sortLE3 k d a c = true := by
  cases d
  · simp only [sortLE3, decide_eq_true_eq] at hab hbc ⊢
    omega
  · simp only [sortLE3, decide_eq_true_eq] at hab hbc ⊢
    omega

theorem sortLE3_total (k : SortKey) (d : SortDir) (a b : Row) :
    (sortLE3 k d a b || sortLE3 k d b a) = true := by
  cases d
  · simp only [sortLE3, Bool.or_eq_true, decide_eq_true_eq]
    omega
  · simp only [sortLE3, Bool.or_eq_true, decide_eq_true_eq]
    omega

theorem clientSort3_pairwise (k : SortKey) (d : SortDir) (rows : List Row) :
    (clientSort3 k d rows).Pairwise (fun a b => sortLE3 k d a b = true) :=
  List.sorted_mergeSort (sortLE3_trans k d) (sortLE3_total k d) rows

theorem clientSort3_rel_of_lt (k : SortKey) (d : SortDir) (rows : List Row)
    (i j : Nat) (hi : i < (clientSort3 k d rows).length)
    (hj : j < (clientSort3 k d rows).length) (hij : i < j) :
    sortLE3 k d ((clientSort3 k d rows).get ⟨i, hi⟩)
      ((clientSort3 k d rows).get ⟨j, hj⟩) = true := by
  have h := List.pairwise_iff_getElem.mp (clientSort3_pairwise k d rows) i j hi hj hij
  simpa using h

theorem lowerStr_eq_empty {s : String} (h : lowerStr s = "") : s = "" := by
  have hd : s.data.map Char.toLower = [] := congrArg String.data h
  exact String.ext (List.map_eq_nil_iff.mp hd)

theorem viewQuery_ne_articlesQuery (p : Params) : viewQuery p ≠ articlesQuery p := by
  intro hcontra
  have h : "v_triage_live" = "articles" := congrArg Query.table hcontra
  exact absurd h (by decide)

/-- Claim C1: for every filter combination and page, the fallback query is the
primary query with the table switched to `articles` and the non-null
`triaged_at` constraint added: it has exactly the same conditional filter
predicates (`lead_score >= minScore` iff `minScore > 0`, equality on
severity/caseType/status iff not `"all"`), the same descending-by-`triaged_at`
ordering and the identical pagination range. -/
theorem fallbackQueryMatchesPrimary (p : Params) :
    articlesQuery p =
      ⟨"articles", (viewQuery p).sel, (viewQuery p).countExact,
        (viewQuery p).minScoreGte, (viewQuery p).severityEq,
        (viewQuery p).caseTypeEq, (viewQuery p).statusEq, true,
        (viewQuery p).descTriagedAt, (viewQuery p).rangeFrom,
        (viewQuery p).rangeTo⟩ ∧
    (viewQuery p).minScoreGte = (if p.minScore > 0 then some p.minScore else none) ∧
    (viewQuery p).severityEq = (if p.severity ≠ "all" then some p.severity else none) ∧
    (viewQuery p).caseTypeEq = (if p.caseType ≠ "all" then some p.caseType else none) ∧
    (viewQuery p).statusEq = (if p.status ≠ "all" then some p.status else none) ∧
    (viewQuery p).notNullTriagedAt = false ∧
    (articlesQuery p).notNullTriagedAt = true ∧
    (articlesQuery p).descTriagedAt = true ∧
    (articlesQuery p).rangeFrom = (viewQuery p).rangeFrom ∧
    (articlesQuery p).rangeTo = (viewQuery p).rangeTo :=
  ⟨rfl, rfl, rfl, rfl, rfl, rfl, rfl, rfl, rfl, rfl⟩

/-- Claim C2: if the primary view query completes without error — the
zero-row case included — the fetcher returns the primary rows and count
tagged `"v_triage_live"`, and its result does not depend on the service's
behaviour on the fallback query (the fallback is never consulted). -/
theorem primarySuccessReturnsPrimaryView (svc altSvc : Service) (p : Params)
    (hok : (svc (viewQuery p)).error = none)
    (hagree : ∀ q, q ≠ articlesQuery p → altSvc q = svc q) :
    fetchPagedFromViewOrArticles (some altSvc) p =
      Except.ok ⟨(svc (viewQuery p)).data.getD [],
        (svc (viewQuery p)).count.getD 0, "v_triage_live"⟩ := by
  have h1 : altSvc (viewQuery p) = svc (viewQuery p) :=
    hagree _ (viewQuery_ne_articlesQuery p)
  simp [fetchPagedFromViewOrArticles, fetchCore, h1, hok]

theorem primarySuccessReturnsPrimaryView_witness :
    fetchPagedFromViewOrArticles (some (fun _ => ⟨some [], some 0, none⟩))
      ⟨70, "fatal", "all", "all", 1⟩ =
      Except.ok ⟨[], 0, "v_triage_live"⟩ :=
  primarySuccessReturnsPrimaryView (fun _ => ⟨some [], some 0, none⟩)
    (fun _ => ⟨some [], some 0, none⟩) ⟨70, "fatal", "all", "all", 1⟩ rfl
    (fun _ _ => rfl)

/-- Claim C3: if the primary view query fails and the fallback base-table
query succeeds, the fetcher returns the fallback rows and count tagged
`"articles"`, returning normally: no error is thrown to the caller. -/
theorem fallbackSuccessReturnsFallbackTable (svc : Service) (p : Params)
    (e1 : String) (h1 : (svc (viewQuery p)).error = some e1)
    (h2 : (svc (articlesQuery p)).error = none) :
    fetchPagedFromViewOrArticles (some svc) p =
      Except.ok ⟨(svc (articlesQuery p)).data.getD [],
        (svc (articlesQuery p)).count.getD 0, "articles"⟩ ∧
    ∀ m, fetchPagedFromViewOrArticles (some svc) p ≠ Except.error m := by
  have hmain : fetchPagedFromViewOrArticles (some svc) p =
      Except.ok ⟨(svc (articlesQuery p)).data.getD [],
        (svc (articlesQuery p)).count.getD 0, "articles"⟩ := by
    simp [fetchPagedFromViewOrArticles, fetchCore, h1, h2]
  exact ⟨hmain, fun m hcontra => by rw [hmain] at hcontra; exact Except.noConfusion hcontra⟩

theorem fallbackSuccessReturnsFallbackTable_witness :
    fetchPagedFromViewOrArticles
      (some (fun q => if q.table = "articles"
        then ⟨some [], some 5, none⟩ else ⟨none, none, some "boom"⟩))
      ⟨0, "all", "all", "all", 1⟩ =
      Except.ok ⟨[], 5, "articles"⟩ :=
  (fallbackSuccessReturnsFallbackTable
    (fun q => if q.table = "articles"
      then ⟨some [], some 5, none⟩ else ⟨none, none, some "boom"⟩)
    ⟨0, "all", "all", "all", 1⟩ "boom" rfl rfl).1

/-- Claim C4: if both the primary view query and the fallback base-table
query fail, the fetcher throws an error whose message contains both
individual error messages, the primary (view) error before the fallback
(articles) error. -/
theorem bothFailuresCombineErrors (svc : Service) (p : Params) (e1 e2 : String)
    (h1 : (svc (viewQuery p)).error = some e1)
    (h2 : (svc (articlesQuery p)).error = some e2) :
    fetchPagedFromViewOrArticles (some svc) p =
      Except.error (combinedErrorMsg e1 e2) ∧
    ∃ u v w, combinedErrorMsg e1 e2 = u ++ e1 ++ v ++ e2 ++ w := by
  refine ⟨by simp [fetchPagedFromViewOrArticles, fetchCore, h1, h2],
    "View error: ", " | Articles error: ", "", ?_⟩
  simp [combinedErrorMsg]

theorem bothFailuresCombineErrors_witness :
    fetchPagedFromViewOrArticles (some (fun _ => ⟨none, none, some "view down"⟩))
      ⟨70, "all", "all", "all", 1⟩ =
      Except.error "View error: view down | Articles error: view down" ∧
    ∃ u v w, combinedErrorMsg "view down" "view down" =
      u ++ "view down" ++ v ++ "view down" ++ w :=
  bothFailuresCombineErrors (fun _ => ⟨none, none, some "view down"⟩)
    ⟨70, "all", "all", "all", 1⟩ "view down" "view down" rfl rfl

/-- Claim C5: when the endpoint URL or the anonymous key is absent, so no
client was or can be constructed, every fetch returns the degraded no-op
result — empty rows and count zero — without any error. -/
theorem missingConfigDegradesToEmpty (isBrowser : Bool)
    (createClient : String → String → Service) (url anon : Option String)
    (p : Params) (habsent : url = none ∨ anon = none) :
    fetchPagedFromViewOrArticles
      (getSupabase isBrowser none url anon createClient) p =
      Except.ok ⟨[], 0, "v_triage_live"⟩ := by
  have hnone : getSupabase isBrowser none url anon createClient = none := by
    rcases habsent with h | h <;> subst h <;> cases isBrowser <;>
      simp [getSupabase] <;> cases anon <;> cases url <;> simp
  rw [hnone]
  rfl

theorem missingConfigDegradesToEmpty_witness :
    fetchPagedFromViewOrArticles
      (getSupabase true none none (some "anon-key")
        (fun _ _ => fun _ => ⟨none, none, some "unreachable"⟩))
      ⟨70, "fatal", "truck", "new", 2⟩ =
      Except.ok ⟨[], 0, "v_triage_live"⟩ :=
  missingConfigDegradesToEmpty true
    (fun _ _ => fun _ => ⟨none, none, some "unreachable"⟩)
    none (some "anon-key") ⟨70, "fatal", "truck", "new", 2⟩ (Or.inl rfl)

/-- Claim C6: for every page `p ≥ 1` the fetcher computes
`skip = (p-1) * 50` and requests the inclusive range `[skip, skip+49]` in
both queries, so against any service that honours the range contract
(returning at most `to - from + 1` rows) a fetched page has at most 50
records. -/
theorem paginationRangeFiftyPerPage (p : Params) (hp : 1 ≤ p.page) :
    (viewQuery p).rangeFrom = (p.page - 1) * 50 ∧
    (viewQuery p).rangeTo = (p.page - 1) * 50 + 49 ∧
    (articlesQuery p).rangeFrom = (p.page - 1) * 50 ∧
    (articlesQuery p).rangeTo = (p.page - 1) * 50 + 49 ∧
    ∀ svc : Service,
      (∀ q, ((svc q).data.getD []).length ≤ (q.rangeTo - q.rangeFrom + 1).toNat) →
      ∀ res, fetchPagedFromViewOrArticles (some svc) p = Except.ok res →
        res.data.length ≤ 50 := by
  refine ⟨rfl, by simp [viewQuery, PAGE_SIZE]; omega, rfl,
    by simp [articlesQuery, PAGE_SIZE]; omega, ?_⟩
  intro svc hrange res hres
  have hwidth : ∀ q : Params,
      ((viewQuery q).rangeTo - (viewQuery q).rangeFrom + 1).toNat = 50 ∧
      ((articlesQuery q).rangeTo - (articlesQuery q).rangeFrom + 1).toNat = 50 := by
    intro q
    constructor <;> simp [viewQuery, articlesQuery, PAGE_SIZE] <;> omega
  simp only [fetchPagedFromViewOrArticles, fetchCore] at hres
  rcases hview : (svc (viewQuery p)).error with _ | e1
  · rw [hview] at hres
    simp only [Except.ok.injEq] at hres
    have := hrange (viewQuery p)
    rw [(hwidth p).1] at this
    rw [← hres]
    exact this
  · rw [hview] at hres
    rcases harts : (svc (articlesQuery p)).error with _ | e2
    · rw [harts] at hres
      simp only [Except.ok.injEq] at hres
      have := hrange (articlesQuery p)
      rw [(hwidth p).2] at this
      rw [← hres]
      exact this
    · rw [harts] at hres
      exact absurd hres (by simp)

theorem paginationRangeFiftyPerPage_witness :
    (viewQuery ⟨0, "all", "all", "all", 3⟩).rangeFrom = (3 - 1) * 50 ∧
    ((⟨[], 0, "v_triage_live"⟩ : FetchOk)).data.length ≤ 50 :=
  ⟨(paginationRangeFiftyPerPage ⟨0, "all", "all", "all", 3⟩ (by decide)).1,
    (paginationRangeFiftyPerPage ⟨0, "all", "all", "all", 3⟩ (by decide)).2.2.2.2
      (fun _ => ⟨some [], some 0, none⟩)
      (fun q => by simp)
      ⟨[], 0, "v_triage_live"⟩ rfl⟩

/-- Claim C7, counterexample: for the search string `" foo "` (neither empty
nor whitespace-only) and a row titled `"foo"`, the code's filter keeps the
row — it matches the trimmed, lowercased query `"foo"` — while the claim's
predicate (haystack contains the lowercased search string `" foo "`) excludes
it, so the claim as stated is false. -/
theorem searchedClaimCounterexample :
    searched [⟨"1", none, some "foo", none, none, none, none, none, none,
      none, none, none⟩] " foo " =
      [⟨"1", none, some "foo", none, none, none, none, none, none,
        none, none, none⟩] ∧
    searchedClaim [⟨"1", none, some "foo", none, none, none, none, none, none,
      none, none, none⟩] " foo " = [] ∧
    jsTrim " foo " ≠ "" := by
  refine ⟨by decide, by decide, by decide⟩

/-- Claim C7 (amended): if the search string is empty or whitespace-only the
client-side search returns all rows unchanged in order; otherwise it returns
exactly the subset of rows whose synthetic haystack contains the *trimmed*,
lowercased search string as a substring (both for the variant without status
in the haystack and for the status-aware variant). -/
theorem searchFilterCharacterization (rows : List Row) (search : String) :
    (jsTrim search = "" →
      searched rows search = rows ∧ searchedWithStatus rows search = rows) ∧
    (jsTrim search ≠ "" →
      searched rows search =
        rows.filter (fun r => strIncludes (hayBase r) (lowerStr (jsTrim search))) ∧
      searchedWithStatus rows search =
        rows.filter (fun r => strIncludes (hayWithStatus r) (lowerStr (jsTrim search)))) := by
  constructor
  · intro h
    have h0 : lowerStr (jsTrim search) = "" := by rw [h]; decide
    constructor
    · simp [searched, h0]
    · simp [searchedWithStatus, h0]
  · intro h
    have h0 : lowerStr (jsTrim search) ≠ "" := fun hc => h (lowerStr_eq_empty hc)
    constructor
    · simp [searched, h0]
    · simp [searchedWithStatus, h0]

theorem searchFilterCharacterization_witness :
    searched [⟨"1", none, some "Truck Crash", none, none, none, none, none,
      none, none, none, none⟩] "  " =
      [⟨"1", none, some "Truck Crash", none, none, none, none, none,
        none, none, none, none⟩] ∧
    searched [⟨"1", none, some "Truck Crash", none, none, none, none, none,
      none, none, none, none⟩] " CRASH " =
      List.filter
        (fun r => strIncludes (hayBase r) (lowerStr (jsTrim " CRASH ")))
        [⟨"1", none, some "Truck Crash", none, none, none, none, none,
          none, none, none, none⟩] :=
  ⟨((searchFilterCharacterization
      [⟨"1", none, some "Truck Crash", none, none, none, none, none,
        none, none, none, none⟩] "  ").1 (by decide)).1,
    ((searchFilterCharacterization
      [⟨"1", none, some "Truck Crash", none, none, none, none, none,
        none, none, none, none⟩] " CRASH ").2 (by decide)).1⟩

theorem clientSort_pair_order (k : SortKey) (d : SortDir) (rows : List Row)
    (i j : Nat) (ri rj : Row)
    (hgi : (clientSort k d rows).get? i = some ri)
    (hgj : (clientSort k d rows).get? j = some rj)
    (hfalse : sortLE k d rj ri = false) (hne : ri ≠ rj) : i < j := by
  obtain ⟨hi, hgeti⟩ := List.get?_eq_some.mp hgi
  obtain ⟨hj, hgetj⟩ := List.get?_eq_some.mp hgj
  rcases Nat.lt_trichotomy i j with hlt | heq | hgt
  · exact hlt
  · exfalso
    subst heq
    rw [hgeti] at hgetj
    exact hne hgetj
  · exfalso
    have hrel := clientSort_rel_of_lt k d rows j i hj hi hgt
    rw [hgeti, hgetj] at hrel
    rw [hfalse] at hrel
    exact Bool.false_ne_true hrel

theorem clientSort3_pair_order (k : SortKey) (d : SortDir) (rows : List Row)
    (i j : Nat) (ri rj : Row)
    (hgi : (clientSort3 k d rows).get? i = some ri)
    (hgj : (clientSort3 k d rows).get? j = some rj)
    (hfalse : sortLE3 k d rj ri = false) (hne : ri ≠ rj) : i < j := by
  obtain ⟨hi, hgeti⟩ := List.get?_eq_some.mp hgi
  obtain ⟨hj, hgetj⟩ := List.get?_eq_some.mp hgj
  rcases Nat.lt_trichotomy i j with hlt | heq | hgt
  · exact hlt
  · exfalso
    subst heq
    rw [hgeti] at hgetj
    exact hne hgetj
  · exfalso
    have hrel := clientSort3_rel_of_lt k d rows j i hj hi hgt
    rw [hgeti, hgetj] at hrel
    rw [hfalse] at hrel
    exact Bool.false_ne_true hrel

/-- Rows used in the sort counterexample and witness. -/
def rScore90 : Row :=
  ⟨"a", none, none, none, none, none, none, some 90, none, none, none, none⟩

def rScore40 : Row :=
  ⟨"b", none, none, none, none, none, none, some 40, none, none, none, none⟩

def rAllMissing : Row :=
  ⟨"c", none, none, none, none, none, none, none, none, none, none, none⟩

def rTriaged5 : Row :=
  ⟨"e", none, none, none, none, none, none, none, none, some 5, none, none⟩

def rScoreNeg5 : Row :=
  ⟨"f", none, none, none, none, none, none, some (-5), none, none, none, none⟩

def rTriagedNeg100 : Row :=
  ⟨"g", none, none, none, none, none, none, none, none, some (-100), none, none⟩

/-- Claim C8, counterexample: the third page variant's sort uses the `?? -1`
and epoch-0 sentinels, not `-Infinity`.  Sorting `[rAllMissing, rScoreNeg5]`
by `lead_score` descending leaves the missing-score row first and the row
scored `-5` last (the claim says missing is last), and sorting
`[rTriagedNeg100, rAllMissing]` by `triaged_at` ascending leaves the
missing-timestamp row last, after the pre-1970 timestamp (the claim says
missing is first). -/
theorem thirdVariantSortCounterexample :
    clientSort3 SortKey.lead_score SortDir.desc [rAllMissing, rScoreNeg5] =
      [rAllMissing, rScoreNeg5] ∧
    rAllMissing.lead_score = none ∧ rScoreNeg5.lead_score = some (-5) ∧
    clientSort3 SortKey.triaged_at SortDir.asc [rTriagedNeg100, rAllMissing] =
      [rTriagedNeg100, rAllMissing] ∧
    rTriagedNeg100.triaged_at = some (-100) ∧ rAllMissing.triaged_at = none := by
  refine ⟨?_, rfl, rfl, ?_, rfl, rfl⟩
  · unfold clientSort3
    exact List.mergeSort_of_sorted (by decide)
  · unfold clientSort3
    exact List.mergeSort_of_sorted (by decide)

/-- Claim C8 (amended): the page variants whose comparator uses the
`-Infinity` sentinel (`clientSort`) treat a missing `lead_score` and a
missing `triaged_at` as negative infinity: the output is a rearrangement of
the input; sorting by `lead_score` descending places a row with score 90
before one with score 40 and places rows with a missing score last; sorting
by `triaged_at` ascending places rows with a missing timestamp first, and
descending places them last.  The third variant (`clientSort3`) instead
treats a missing `lead_score` as `-1` and a missing `triaged_at` as epoch 0:
descending by score still places 90 before 40, but a missing-score row comes
after rows scored above `-1` and before rows scored below `-1`, and
ascending by `triaged_at` a missing-timestamp row comes after pre-1970
timestamps and before post-1970 ones. -/
theorem clientSortSentinelSemantics (rows : List Row) :
    (∀ (k : SortKey) (d : SortDir), List.Perm (clientSort k d rows) rows) ∧
    (∀ (i j : Nat) (ri rj : Row),
      (clientSort SortKey.lead_score SortDir.desc rows).get? i = some ri →
      ri.lead_score = some 90 →
      (clientSort SortKey.lead_score SortDir.desc rows).get? j = some rj →
      rj.lead_score = some 40 → i < j) ∧
    (∀ (i j : Nat) (ri rj : Row) (s : Int),
      (clientSort SortKey.lead_score SortDir.desc rows).get? i = some ri →
      ri.lead_score = none →
      (clientSort SortKey.lead_score SortDir.desc rows).get? j = some rj →
      rj.lead_score = some s → j < i) ∧
    (∀ (i j : Nat) (ri rj : Row) (t : Int),
      (clientSort SortKey.triaged_at SortDir.asc rows).get? i = some ri →
      ri.triaged_at = none →
      (clientSort SortKey.triaged_at SortDir.asc rows).get? j = some rj →
      rj.triaged_at = some t → i < j) ∧
    (∀ (i j : Nat) (ri rj : Row) (t : Int),
      (clientSort SortKey.triaged_at SortDir.desc rows).get? i = some ri →
      ri.triaged_at = none →
      (clientSort SortKey.triaged_at SortDir.desc rows).get? j = some rj →
      rj.triaged_at = some t → j < i) ∧
    (∀ (k : SortKey) (d : SortDir), List.Perm (clientSort3 k d rows) rows) ∧
    (∀ (i j : Nat) (ri rj : Row),
      (clientSort3 SortKey.lead_score SortDir.desc rows).get? i = some ri →
      ri.lead_score = some 90 →
      (clientSort3 SortKey.lead_score SortDir.desc rows).get? j = some rj →
      rj.lead_score = some 40 → i < j) ∧
    (∀ (i j : Nat) (ri rj : Row) (s : Int),
      (clientSort3 SortKey.lead_score SortDir.desc rows).get? i = some ri →
      ri.lead_score = none →
      (clientSort3 SortKey.lead_score SortDir.desc rows).get? j = some rj →
      rj.lead_score = some s → s > -1 → j < i) ∧
    (∀ (i j : Nat) (ri rj : Row) (s : Int),
      (clientSort3 SortKey.lead_score SortDir.desc rows).get? i = some ri →
      ri.lead_score = none →
      (clientSort3 SortKey.lead_score SortDir.desc rows).get? j = some rj →
      rj.lead_score = some s → s < -1 → i < j) ∧
    (∀ (i j : Nat) (ri rj : Row) (t : Int),
      (clientSort3 SortKey.triaged_at SortDir.asc rows).get? i = some ri →
      ri.triaged_at = none →
      (clientSort3 SortKey.triaged_at SortDir.asc rows).get? j = some rj →
      rj.triaged_at = some t → t < 0 → j < i) ∧
    (∀ (i j : Nat) (ri rj : Row) (t : Int),
      (clientSort3 SortKey.triaged_at SortDir.asc rows).get? i = some ri →
      ri.triaged_at = none →
      (clientSort3 SortKey.triaged_at SortDir.asc rows).get? j = some rj →
      rj.triaged_at = some t → t > 0 → i < j) := by
  refine ⟨fun k d => List.mergeSort_perm rows (sortLE k d), ?_, ?_, ?_, ?_,
    fun k d => List.mergeSort_perm rows (sortLE3 k d), ?_, ?_, ?_, ?_, ?_⟩
  · intro i j ri rj hgi h90 hgj h40
    refine clientSort_pair_order _ _ rows i j ri rj hgi hgj ?_ ?_
    · simp [sortLE, keyOf, h90, h40, extLE]
    · intro he
      rw [← he, h90] at h40
      exact absurd h40 (by decide)
  · intro i j ri rj s hgi hnone hgj hsome
    refine clientSort_pair_order _ _ rows j i rj ri hgj hgi ?_ ?_
    · simp [sortLE, keyOf, hnone, hsome, extLE]
    · intro he
      rw [he, hnone] at hsome
      exact Option.noConfusion hsome
  · intro i j ri rj t hgi hnone hgj hsome
    refine clientSort_pair_order _ _ rows i j ri rj hgi hgj ?_ ?_
    · simp [sortLE, keyOf, hnone, hsome, extLE]
    · intro he
      rw [he, hsome] at hnone
      exact Option.noConfusion hnone
  · intro i j ri rj t hgi hnone hgj hsome
    refine clientSort_pair_order _ _ rows j i rj ri hgj hgi ?_ ?_
    · simp [sortLE, keyOf, hnone, hsome, extLE]
    · intro he
      rw [he, hnone] at hsome
      exact Option.noConfusion hsome
  · intro i j ri rj hgi h90 hgj h40
    refine clientSort3_pair_order _ _ rows i j ri rj hgi hgj ?_ ?_
    · simp [sortLE3, keyOf3, h90, h40]
    · intro he
      rw [← he, h90] at h40
      exact absurd h40 (by decide)
  · intro i j ri rj s hgi hnone hgj hsome hs
    refine clientSort3_pair_order _ _ rows j i rj ri hgj hgi ?_ ?_
    · simp [sortLE3, keyOf3, hnone, hsome] <;> omega
    · intro he
      rw [he, hnone] at hsome
      exact Option.noConfusion hsome
  · intro i j ri rj s hgi hnone hgj hsome hs
    refine clientSort3_pair_order _ _ rows i j ri rj hgi hgj ?_ ?_
    · simp [sortLE3, keyOf3, hnone, hsome] <;> omega
    · intro he
      rw [he, hsome] at hnone
      exact Option.noConfusion hnone
  · intro i j ri rj t hgi hnone hgj hsome ht
    refine clientSort3_pair_order _ _ rows j i rj ri hgj hgi ?_ ?_
    · simp [sortLE3, keyOf3, hnone, hsome] <;> omega
    · intro he
      rw [he, hnone] at hsome
      exact Option.noConfusion hsome
  · intro i j ri rj t hgi hnone hgj hsome ht
    refine clientSort3_pair_order _ _ rows i j ri rj hgi hgj ?_ ?_
    · simp [sortLE3, keyOf3, hnone, hsome] <;> omega
    · intro he
      rw [he, hsome] at hnone
      exact Option.noConfusion hnone

theorem clientSortSentinelSemantics_witness :
    List.Perm (clientSort SortKey.lead_score SortDir.desc
      [rScore90, rScore40, rAllMissing]) [rScore90, rScore40, rAllMissing] ∧
    List.Perm (clientSort3 SortKey.lead_score SortDir.desc
      [rScore90, rScore40]) [rScore90, rScore40] ∧
    (0 : Nat) < 1 ∧ (1 : Nat) < 2 ∧ (0 : Nat) < 1 ∧ (0 : Nat) < 1 ∧
    (0 : Nat) < 1 ∧ (0 : Nat) < 1 ∧ (0 : Nat) < 1 ∧ (0 : Nat) < 1 ∧
    (0 : Nat) < 1 := by
  have hA : clientSort SortKey.lead_score SortDir.desc
      [rScore90, rScore40, rAllMissing] = [rScore90, rScore40, rAllMissing] := by
    unfold clientSort
    exact List.mergeSort_of_sorted (by decide)
  have hB : clientSort SortKey.triaged_at SortDir.asc
      [rAllMissing, rTriaged5] = [rAllMissing, rTriaged5] := by
    unfold clientSort
    exact List.mergeSort_of_sorted (by decide)
  have hC : clientSort SortKey.triaged_at SortDir.desc
      [rTriaged5, rAllMissing] = [rTriaged5, rAllMissing] := by
    unfold clientSort
    exact List.mergeSort_of_sorted (by decide)
  have hD : clientSort3 SortKey.lead_score SortDir.desc
      [rScore90, rScore40] = [rScore90, rScore40] := by
    unfold clientSort3
    exact List.mergeSort_of_sorted (by decide)
  have hE : clientSort3 SortKey.lead_score SortDir.desc
      [rScore40, rAllMissing] = [rScore40, rAllMissing] := by
    unfold clientSort3
    exact List.mergeSort_of_sorted (by decide)
  have hF : clientSort3 SortKey.lead_score SortDir.desc
      [rAllMissing, rScoreNeg5] = [rAllMissing, rScoreNeg5] := by
    unfold clientSort3
    exact List.mergeSort_of_sorted (by decide)
  have hG : clientSort3 SortKey.triaged_at SortDir.asc
      [rTriagedNeg100, rAllMissing] = [rTriagedNeg100, rAllMissing] := by
    unfold clientSort3
    exact List.mergeSort_of_sorted (by decide)
  have hH : clientSort3 SortKey.triaged_at SortDir.asc
      [rAllMissing, rTriaged5] = [rAllMissing, rTriaged5] := by
    unfold clientSort3
    exact List.mergeSort_of_sorted (by decide)
  refine ⟨(clientSortSentinelSemantics [rScore90, rScore40, rAllMissing]).1 _ _,
    (clientSortSentinelSemantics [rScore90, rScore40]).2.2.2.2.2.1 _ _,
    ?_, ?_, ?_, ?_, ?_, ?_, ?_, ?_, ?_⟩
  · exact (clientSortSentinelSemantics [rScore90, rScore40, rAllMissing]).2.1
      0 1 rScore90 rScore40 (by rw [hA]; rfl) rfl (by rw [hA]; rfl) rfl
  · exact (clientSortSentinelSemantics [rScore90, rScore40, rAllMissing]).2.2.1
      2 1 rAllMissing rScore40 40 (by rw [hA]; rfl) rfl (by rw [hA]; rfl) rfl
  · exact (clientSortSentinelSemantics [rAllMissing, rTriaged5]).2.2.2.1
      0 1 rAllMissing rTriaged5 5 (by rw [hB]; rfl) rfl (by rw [hB]; rfl) rfl
  · exact (clientSortSentinelSemantics [rTriaged5, rAllMissing]).2.2.2.2.1
      1 0 rAllMissing rTriaged5 5 (by rw [hC]; rfl) rfl (by rw [hC]; rfl) rfl
  · exact (clientSortSentinelSemantics [rScore90, rScore40]).2.2.2.2.2.2.1
      0 1 rScore90 rScore40 (by rw [hD]; rfl) rfl (by rw [hD]; rfl) rfl
  · exact (clientSortSentinelSemantics [rScore40, rAllMissing]).2.2.2.2.2.2.2.1
      1 0 rAllMissing rScore40 40 (by rw [hE]; rfl) rfl (by rw [hE]; rfl) rfl
      (by decide)
  · exact (clientSortSentinelSemantics [rAllMissing, rScoreNeg5]).2.2.2.2.2.2.2.2.1
      0 1 rAllMissing rScoreNeg5 (-5) (by rw [hF]; rfl) rfl (by rw [hF]; rfl) rfl
      (by decide)
  · exact (clientSortSentinelSemantics [rTriagedNeg100, rAllMissing]).2.2.2.2.2.2.2.2.2.1
      1 0 rAllMissing rTriagedNeg100 (-100) (by rw [hG]; rfl) rfl (by rw [hG]; rfl) rfl
      (by decide)
  · exact (clientSortSentinelSemantics [rAllMissing, rTriaged5]).2.2.2.2.2.2.2.2.2.2
      0 1 rAllMissing rTriaged5 5 (by rw [hH]; rfl) rfl (by rw [hH]; rfl) rfl
      (by decide)

/-- Claim C9: when the fetch fails (both queries error), `load` sets the
displayed rows to empty and the total count to zero, records the error
message and clears the source, and leaves every filter selection (minScore,
severity, caseType, status) and the other state (page, search, sort key and
direction, auto-refresh) unchanged, so the user can retry with the same
filters. -/
theorem loadFailureClearsRowsKeepsFilters (client : Option Service)
    (st : PageState) (e : String)
    (h : fetchPagedFromViewOrArticles client (paramsOf st) = Except.error e) :
    (load client st).rows = [] ∧ (load client st).totalCount = 0 ∧
    (load client st).err = some e ∧ (load client st).source = none ∧
    (load client st).minScore = st.minScore ∧
    (load client st).severity = st.severity ∧
    (load client st).caseType = st.caseType ∧
    (load client st).status = st.status ∧
    (load client st).page = st.page ∧
    (load client st).search = st.search ∧
    (load client st).sortKey = st.sortKey ∧
    (load client st).sortDir = st.sortDir ∧
    (load client st).autoRefresh = st.autoRefresh := by
  simp [load, h]

theorem loadFailureClearsRowsKeepsFilters_witness :
    (load (some (fun _ => ⟨none, none, some "boom"⟩))
      ⟨[], 7, false, none, none, 70, "fatal", "truck", "new", "smith", 3,
        true, SortKey.lead_score, SortDir.asc⟩).rows = [] ∧
    (load (some (fun _ => ⟨none, none, some "boom"⟩))
      ⟨[], 7, false, none, none, 70, "fatal", "truck", "new", "smith", 3,
        true, SortKey.lead_score, SortDir.asc⟩).minScore = 70 ∧
    (load (some (fun _ => ⟨none, none, some "boom"⟩))
      ⟨[], 7, false, none, none, 70, "fatal", "truck", "new", "smith", 3,
        true, SortKey.lead_score, SortDir.asc⟩).page = 3 :=
  ⟨(loadFailureClearsRowsKeepsFilters (some (fun _ => ⟨none, none, some "boom"⟩))
      ⟨[], 7, false, none, none, 70, "fatal", "truck", "new", "smith", 3,
        true, SortKey.lead_score, SortDir.asc⟩
      (combinedErrorMsg "boom" "boom") rfl).1,
    (loadFailureClearsRowsKeepsFilters (some (fun _ => ⟨none, none, some "boom"⟩))
      ⟨[], 7, false, none, none, 70, "fatal", "truck", "new", "smith", 3,
        true, SortKey.lead_score, SortDir.asc⟩
      (combinedErrorMsg "boom" "boom") rfl).2.2.2.2.1,
    (loadFailureClearsRowsKeepsFilters (some (fun _ => ⟨none, none, some "boom"⟩))
      ⟨[], 7, false, none, none, 70, "fatal", "truck", "new", "smith", 3,
        true, SortKey.lead_score, SortDir.asc⟩
      (combinedErrorMsg "boom" "boom") rfl).2.2.2.2.2.2.2.2.1⟩

/-- Claim C10 (implicit): the score predicate is applied iff `minScore` is
strictly positive, so for every `minScore ≤ 0` — negative values included —
the fetcher builds exactly the queries of `minScore = 0` (no score
constraint) and returns the same result against every client. -/
theorem minScoreFilterOnlyWhenPositive (p : Params) (h : p.minScore ≤ 0) :
    (viewQuery p).minScoreGte = none ∧
    (articlesQuery p).minScoreGte = none ∧
    viewQuery p = viewQuery ⟨0, p.severity, p.caseType, p.status, p.page⟩ ∧
    articlesQuery p = articlesQuery ⟨0, p.severity, p.caseType, p.status, p.page⟩ ∧
    ∀ client, fetchPagedFromViewOrArticles client p =
      fetchPagedFromViewOrArticles client ⟨0, p.severity, p.caseType, p.status, p.page⟩ := by
  have h0 : ¬(p.minScore > 0) := by omega
  have hview : viewQuery p = viewQuery ⟨0, p.severity, p.caseType, p.status, p.page⟩ := by
    simp [viewQuery, h0]
  have harts : articlesQuery p = articlesQuery ⟨0, p.severity, p.caseType, p.status, p.page⟩ := by
    simp [articlesQuery, h0]
  refine ⟨by simp [viewQuery, h0], by simp [articlesQuery, h0], hview, harts, ?_⟩
  intro client
  cases client with
  | none => rfl
  | some svc =>
    show fetchCore (svc (viewQuery p)) (svc (articlesQuery p)) = _
    rw [hview, harts]
    rfl

theorem minScoreFilterOnlyWhenPositive_witness :
    (viewQuery ⟨-5, "all", "all", "all", 1⟩).minScoreGte = none ∧
    fetchPagedFromViewOrArticles none ⟨-5, "all", "all", "all", 1⟩ =
      fetchPagedFromViewOrArticles none ⟨0, "all", "all", "all", 1⟩ :=
  ⟨(minScoreFilterOnlyWhenPositive ⟨-5, "all", "all", "all", 1⟩ (by decide)).1,
    (minScoreFilterOnlyWhenPositive ⟨-5, "all", "all", "all", 1⟩ (by decide)).2.2.2.2
      none⟩
